import Mathlib

set_option maxHeartbeats 1000000

namespace Opentrons

/-!  Verification development for the opentrons motion-control core.

The definitions below are shallow embeddings of the Python sources under
`src/api/opentrons/`:

  * the motion planner (`Robot._create_arc`, `Robot.home`, `Robot.move_to`
    planner-state updates) from `robot/robot.py`;
  * the smoothie driver protocol behaviour (limit-switch recovery, command
    retry) whose driver module is exercised by
    `tests/opentrons/drivers/test_driver.py`; the driver module itself is not
    part of the provided sources, so those definitions are modelled from the
    specification and the contract test;
  * the deck-calibration HTTP command layer from
    `deck_calibration/endpoints.py`.

Measurements are rationals (the Python code uses floats but performs only
field arithmetic on them).  Objects such as containers, instruments and
pipette models are identified by natural numbers.
-/

/-!  ## Motion planner (src/api/opentrons/robot/robot.py)  -/

/-- robot.py line 23: clearance when moving between different labware. -/
def TIP_CLEARANCE_DECK : ℚ := 20

/-- robot.py line 24: clearance when staying within a single labware. -/
def TIP_CLEARANCE_LABWARE : ℚ := 5

/-- Environment of height queries consulted by `Robot._create_arc`:
`max_placeable_height_on_deck` (per-container calibrated height),
`max_deck_height` (`pose_tracker.max_z` over the whole deck, robot.py
lines 1033-1035) and the instrument's `_max_deck_height()` mechanical limit. -/
structure ArcEnv where
  max_placeable_height_on_deck : ℕ → ℚ
  max_deck_height : ℚ
  instr_max_deck_height : ℚ

/-- The planner state mutated by `Robot.reset` / `Robot.home` /
`Robot.move_to` / `Robot._create_arc`: the sticky `_prev_container`,
`_previous_instrument` and the `_use_safest_height` flag
(robot.py lines 279-282). -/
structure RobotPlanner where
  prev_container : Option ℕ
  previous_instrument : Option ℕ
  use_safest_height : Bool
  deriving DecidableEq

/-- One element of the strategy list returned by `Robot._create_arc`
(robot.py lines 701-705): rise to the travel height, translate in XY,
descend to the destination z. -/
inductive Waypoint
  | upZ (z : ℚ)
  | xy (x y : ℚ)
  | downZ (z : ℚ)
  deriving DecidableEq

/-- The `elif` / `else` part of the height policy in `Robot._create_arc`
(robot.py lines 686-691): safest-height mode uses the instrument's maximal
reachable deck height, otherwise the global deck height plus clearance. -/
def arc_top_default (env : ArcEnv) (st : RobotPlanner) : ℚ :=
  if st.use_safest_height then env.instr_max_deck_height
  else env.max_deck_height + TIP_CLEARANCE_DECK

/-- The pre-clamp travel height of `Robot._create_arc` (robot.py lines
680-691).  `thisContainer` is the container resolved from the `placeable`
argument (lines 672-678); the same-container branch requires it to be
non-`None` and equal to the sticky `_prev_container`. -/
def arc_top_raw (env : ArcEnv) (st : RobotPlanner) (thisContainer : Option ℕ) : ℚ :=
  match thisContainer with
  | some c =>
    if st.prev_container = some c then
      env.max_placeable_height_on_deck c + TIP_CLEARANCE_LABWARE
    else arc_top_default env st
  | none => arc_top_default env st

/-- The clamped travel height of `Robot._create_arc` (robot.py lines
695-699): `arc_top = max(arc_top, destination[2], pip_z)` followed by
`arc_top = min(arc_top, inst._max_deck_height())`. -/
def arc_travel_height (env : ArcEnv) (st : RobotPlanner) (dest : ℚ × ℚ × ℚ)
    (thisContainer : Option ℕ) (pip_z : ℚ) : ℚ :=
  min (max (arc_top_raw env st thisContainer) (max dest.2.2 pip_z))
    env.instr_max_deck_height

/-- `Robot._create_arc` (robot.py lines 668-707): returns the strategy list
and the updated planner state (`self._prev_container = this_container`,
line 693). -/
def create_arc (env : ArcEnv) (st : RobotPlanner) (dest : ℚ × ℚ × ℚ)
    (thisContainer : Option ℕ) (pip_z : ℚ) : List Waypoint × RobotPlanner :=
  ([ Waypoint.upZ (arc_travel_height env st dest thisContainer pip_z),
     Waypoint.xy dest.1 dest.2.1,
     Waypoint.downZ dest.2.2 ],
   { st with prev_container := thisContainer })

/-- Planner-state effect of `Robot.home` (robot.py lines 512-547): the sticky
previous-instrument and previous-container state are cleared (lines 539-542).
The gantry/plunger homing commands themselves act on the driver and pose
tree, which are external to the planner state modelled here. -/
def home (st : RobotPlanner) : RobotPlanner :=
  { st with previous_instrument := none, prev_container := none }

/-- Planner-state effect of the previous-instrument bookkeeping in
`Robot.move_to` (robot.py lines 643-650): switching instruments retracts the
old one and clears `_prev_container`; in every case `_previous_instrument`
becomes the current instrument. -/
def move_to_update (st : RobotPlanner) (instrument : ℕ) : RobotPlanner :=
  match st.previous_instrument with
  | some prev =>
      if prev ≠ instrument then
        { st with previous_instrument := some instrument, prev_container := none }
      else
        { st with previous_instrument := some instrument }
  | none => { st with previous_instrument := some instrument }

/-!  ## Hardware driver protocol

The smoothie driver module (`drivers/smoothie_drivers/driver_3_0.py`) is not
among the provided sources; only its contract test
(`tests/opentrons/drivers/test_driver.py`) is.  The definitions in this
section are therefore modelled from the specification (sections 4.4 and 8)
and grounded in the expected command traces of `test_clear_limit_switch`
and `test_send_command_with_retry`.
-/

/-- The six physical smoothie axes. -/
inductive SAxis | X | Y | Z | A | B | C
  deriving DecidableEq

/-- Modelled from the spec: the per-axis driver state of section 3 "Axis
State" — last confirmed position, homed flag, applied current, and the
active/dwelling current settings. -/
structure SmoothieSt where
  position : SAxis → ℚ
  homed : SAxis → Bool
  current : SAxis → ℚ
  active_current : SAxis → ℚ
  dwelling_current : SAxis → ℚ

/-- Abstracted serial commands issued by the driver, named after the G-codes
observed in `test_clear_limit_switch`: the move itself (`G0...`), `M999`
(clear alarm), `M907...G28.2<axis>` (home the axis at its homing current),
`M907...` restoring that axis to dwelling current, and `M114.2` (position
query). -/
inductive SCmd
  | move_request
  | clear_alarm
  | home_at_homing_current (a : SAxis)
  | dwell_current_cmd (a : SAxis)
  | query_position
  deriving DecidableEq

/-- Acknowledgement of a move command: either plain `ok` or a hard-limit
alarm naming the faulted axis. -/
inductive MoveAck
  | ack_ok
  | hard_limit (a : SAxis)
  deriving DecidableEq

/-- Modelled from the spec (section 4.4, limit-switch fault recovery): on a
hard-limit alarm for axis `a` the driver clears the alarm, re-homes only `a`
at its homing current, restores `a` to dwelling current, and re-queries the
true position of all axes.  Only the faulted axis's homed flag and current
are touched. -/
def recover_from_limit (st : SmoothieSt) (a : SAxis) (true_pos : SAxis → ℚ) :
    List SCmd × SmoothieSt :=
  ([SCmd.clear_alarm, SCmd.home_at_homing_current a,
    SCmd.dwell_current_cmd a, SCmd.query_position],
   { st with
       position := true_pos,
       homed := fun x => if x = a then true else st.homed x,
       current := fun x => if x = a then st.dwelling_current x else st.current x })

/-- Modelled from the spec: a driver move given the acknowledgement the
hardware returns.  A successful ack applies the target; a hard-limit alarm
triggers `recover_from_limit` and then surfaces a `SmoothieError` to the
caller (the original move is not reissued). -/
def driver_move (st : SmoothieSt) (target : SAxis → Option ℚ) (ack : MoveAck)
    (true_pos : SAxis → ℚ) : List SCmd × SmoothieSt × Except Unit Unit :=
  match ack with
  | MoveAck.ack_ok =>
      ([SCmd.move_request],
       { st with position := fun x => (target x).getD (st.position x) },
       Except.ok ())
  | MoveAck.hard_limit a =>
      let r := recover_from_limit st a true_pos
      (SCmd.move_request :: r.1, r.2, Except.error ())

/-- Modelled from the spec: the fixed retry budget for `_send_command`.
`test_send_command_with_retry` shows two transparent retries (three attempts
total): two failures then success returns success, three failures surfaces
the error. -/
def DRIVER_MAX_ATTEMPTS : ℕ := 3

/-- Modelled from the spec (section 4.4, command dispatch): attempt the
transport; on a transient no-response failure retry while budget remains.
Returns the final result together with the number of attempts made.
`transport n` is the outcome of the `n`-th attempt (0-based); responses are
abstracted to naturals. -/
def send_command_attempts (transport : ℕ → Except Unit ℕ) :
    ℕ → ℕ → Except Unit ℕ × ℕ
  | 0, made => (Except.error (), made)
  | Nat.succ n, made =>
    match transport made with
    | Except.ok s => (Except.ok s, made + 1)
    | Except.error _ => send_command_attempts transport n (made + 1)

/-- Modelled from the spec: `_send_command` with its fixed retry budget. -/
def send_command (transport : ℕ → Except Unit ℕ) : Except Unit ℕ × ℕ :=
  send_command_attempts transport DRIVER_MAX_ATTEMPTS 0

/-!  ## Deck-calibration command layer
(src/api/opentrons/deck_calibration/endpoints.py)

Session tokens and pipette model names are identified by naturals.  The
helper modules `deck_calibration/__init__.py` (`jog`, `position`,
`dots_set`, `z_pos`), `deck_calibration/linal.py` (`solve`, `add_z`),
`robot_configs` and `pipette_config` are not among the provided sources;
their behaviour is modelled from the specification where marked.
-/

/-- The two mount axis letters stored in `session.current_mount`
(`'A'` = right mount, `'Z'` = left mount). -/
inductive Mnt | A | Z
  deriving DecidableEq

/-- The state of `SessionManager` (endpoints.py lines 57-76), together with
the fields mutated by `init_pipette` / the command handlers.  The three
points keyed `'1'`, `'2'`, `'3'` are split into three fields;
`pip_channels` is the channel count of the pipette stored in
`session.pipettes` for the selected mount (`None` when no pipette has been
stored). -/
structure Session where
  id : ℕ
  current_mount : Option Mnt
  current_model : Option ℕ
  tip_length : Option ℚ
  point1 : Option (ℚ × ℚ)
  point2 : Option (ℚ × ℚ)
  point3 : Option (ℚ × ℚ)
  z_value : Option ℚ
  pip_channels : Option ℕ
  deriving DecidableEq

/-- The slice of `robot.config` read and written by the calibration layer:
the gantry calibration matrix (a list of rows whose entries mirror Python
floats-or-`None`) and the left-mount offset. -/
structure RobotConfig where
  gantry_calibration : List (List (Option ℚ))
  mount_offset : ℚ × ℚ × ℚ
  deriving DecidableEq

/-- The mutable process-wide state touched by the calibration endpoints:
the single optional session, `robot.config`, the arguments last passed to
`robot_configs.save_deck_calibration` / `backup_configuration`, and the
deck-frame position of the selected instrument's primary (A1) tip. -/
structure SysState where
  session : Option Session
  config : RobotConfig
  saved_config : Option RobotConfig
  backup_config : Option RobotConfig
  instr_pos : ℚ × ℚ × ℚ
  deriving DecidableEq

/-- External constants consumed by the endpoints: `pipette_config`'s
`Y_OFFSET_MULTI`, the three expected deck points from `dots_set()`, the
`z_pos` reference point, the z model offset per pipette model
(`pipette_config.load(model).model_offset[-1]`), and the channel count of
each recognized pipette model (`None` when the model string is not in
`pipette_config.configs`).  All are modelled from the spec, since these
modules are not among the provided sources. -/
structure CalEnv where
  y_offset_multi : ℚ
  expected1 : ℚ × ℚ
  expected2 : ℚ × ℚ
  expected3 : ℚ × ℚ
  z_pos : ℚ × ℚ × ℚ
  model_offset_z : ℕ → ℚ
  config_channels : ℕ → Option ℕ

/-- Modelled from the spec: the built-in default gantry calibration produced
by `robot_configs._build_config({}, {}).gantry_calibration` (an identity
transform). -/
def default_gantry_calibration : List (List (Option ℚ)) :=
  [[some 1, some 0, some 0, some 0],
   [some 0, some 1, some 0, some 0],
   [some 0, some 0, some 1, some 0],
   [some 0, some 0, some 0, some 1]]

/-- The distinct response messages produced by the endpoints layer. -/
inductive Msg
  | session_must_be_started
  | token_required
  | command_required
  | invalid_token
  | internal_exception
  | axis_invalid
  | direction_invalid
  | step_required
  | jogged
  | move_point_invalid
  | moved
  | save_point_invalid
  | mount_not_set
  | point_saved
  | tip_length_required
  | tip_length_set
  | tip_removed
  | tip_length_not_set
  | z_saved
  | points_not_saved
  | config_saved
  | session_released
  | token_issued (t : ℕ)
  | pipette_not_recognized
  | session_in_progress
  deriving DecidableEq

/-- A response: HTTP-equivalent status and message. -/
abbrev Resp := ℕ × Msg

/-- The jog axis field of a request (`'x'`, `'y'`, `'z'`, or any other
value). -/
inductive JAxis | jx | jy | jz | jbad
  deriving DecidableEq

/-- The point-name field of a request (`'1'`, `'2'`, `'3'`, `'safeZ'`,
`'attachTip'`, or any other value). -/
inductive PointName | p1 | p2 | p3 | safeZ | attachTip | pbad
  deriving DecidableEq

/-- The eight commands of the router (endpoints.py lines 429-436). -/
inductive Command
  | jog
  | move_cmd
  | save_xy_cmd
  | attach_tip_cmd
  | detach_tip_cmd
  | save_z_cmd
  | save_transform_cmd
  | release_cmd
  deriving DecidableEq

/-- The command field of a request: missing, an unrecognized name (a
`KeyError` in the router lookup), or one of the eight known commands. -/
inductive CmdField
  | absent
  | unknown
  | known (c : Command)
  deriving DecidableEq

/-- The JSON body of a dispatched request, restricted to the fields the
handlers read. -/
structure ReqData where
  token : Option ℕ
  command : CmdField
  axis : Option JAxis
  direction : Option ℤ
  step : Option ℚ
  point : Option PointName
  tipLength : Option ℚ
  deriving DecidableEq

/-- `safe_points()` (endpoints.py lines 28-50), with the three expected dot
positions taken from the environment and `z_pos` / the attach-tip point as
in the source. -/
def safe_points (env : CalEnv) : PointName → Option (ℚ × ℚ × ℚ)
  | PointName.p1 => some (env.expected1.1 + 5, env.expected1.2 + 5, 10)
  | PointName.p2 => some (env.expected2.1 - 5, env.expected2.2 + 5, 10)
  | PointName.p3 => some (env.expected3.1 + 5, env.expected3.2 - 5, 10)
  | PointName.safeZ => some env.z_pos
  | PointName.attachTip => some (200, 90, 150)
  | PointName.pbad => none

/-- Modelled from the spec: the smoothie position reported by
`deck_calibration.position(mount)` for the given mount, expressed through
the deck-frame position of the instrument's A1 tip.  Per the source
comments (endpoints.py lines 278-288, robot.py lines 405-423) the raw
reading differs from the A1 deck position by the left-mount offset (added
back in `save_xy`) and, for multi-channel pipettes, by `Y_OFFSET_MULTI` in
y (the distance from the pipette's axial center to the A1 tip). -/
def position_reading (env : CalEnv) (st : SysState) (m : Mnt) (channels : ℕ) :
    ℚ × ℚ × ℚ :=
  let mo := if m = Mnt.Z then st.config.mount_offset else ((0 : ℚ), (0 : ℚ), (0 : ℚ))
  (st.instr_pos.1 - mo.1,
   st.instr_pos.2.1 - mo.2.1 - (if channels ≠ 1 then env.y_offset_multi else 0),
   st.instr_pos.2.2 - mo.2.2)

/-- Validity of the jog axis field: the source check
`axis not in ('x', 'y', 'z')` (endpoints.py line 236). -/
def jog_axis_ok : Option JAxis → Bool
  | some JAxis.jx => true
  | some JAxis.jy => true
  | some JAxis.jz => true
  | _ => false

/-- Validity of the jog direction field: the source check
`direction not in (-1, 1)` (endpoints.py line 239). -/
def direction_ok : Option ℤ → Bool
  | some d => d == 1 || d == (-1 : ℤ)
  | none => false

/-- Modelled from the spec: the physical effect of
`deck_calibration.jog(axis, direction, step)` — the selected instrument
moves by `direction * step` along the given axis (the mount letters move
the vertical axis). -/
def apply_jog (st : SysState) (ax : JAxis) (dir : ℤ) (step : ℚ) : SysState :=
  match ax with
  | JAxis.jx =>
      { st with instr_pos :=
          (st.instr_pos.1 + (dir : ℚ) * step, st.instr_pos.2.1, st.instr_pos.2.2) }
  | JAxis.jy =>
      { st with instr_pos :=
          (st.instr_pos.1, st.instr_pos.2.1 + (dir : ℚ) * step, st.instr_pos.2.2) }
  | JAxis.jz =>
      { st with instr_pos :=
          (st.instr_pos.1, st.instr_pos.2.1, st.instr_pos.2.2 + (dir : ℚ) * step) }
  | JAxis.jbad => st

/-- `run_jog` (endpoints.py lines 215-253): axis validity, then direction
validity, then step presence; on success the jog is applied.  When the axis
is `'z'` it is replaced by `session.current_mount` (line 247); if no mount
is selected `axis.upper()` raises on `None` and the dispatch catch-all
turns it into a 500. -/
def run_jog (s : Session) (st : SysState) (data : ReqData) : Resp × SysState :=
  if jog_axis_ok data.axis = false then ((400, Msg.axis_invalid), st)
  else if direction_ok data.direction = false then ((400, Msg.direction_invalid), st)
  else
    match data.step with
    | none => ((400, Msg.step_required), st)
    | some stp =>
      match data.axis, data.direction with
      | some ax, some dir =>
          if ax = JAxis.jz ∧ s.current_mount = none then
            ((500, Msg.internal_exception), st)
          else ((200, Msg.jogged), apply_jog st ax dir stp)
      | _, _ => ((500, Msg.internal_exception), st)

/-- `move` (endpoints.py lines 256-302): looks the named point up in
`safe_points()`; for a multi-channel pipette the y target is shifted by
`2 * Y_OFFSET_MULTI` (lines 289-293); then the pipette arcs to the target
(the physical endpoint of `pipette.move_to` — the A1 tip lands on the
target).  A missing pipette entry (`session.pipettes[mount]`) raises a
`KeyError`, surfaced as 500 by the dispatch catch-all. -/
def move (env : CalEnv) (s : Session) (st : SysState) (data : ReqData) :
    Resp × SysState :=
  match data.point with
  | none => ((400, Msg.move_point_invalid), st)
  | some pn =>
    match safe_points env pn with
    | none => ((400, Msg.move_point_invalid), st)
    | some pt =>
      match s.pip_channels with
      | none => ((500, Msg.internal_exception), st)
      | some ch =>
        let target :=
          if ch ≠ 1 then (pt.1, pt.2.1 + env.y_offset_multi * 2, pt.2.2) else pt
        ((200, Msg.moved), { st with instr_pos := target })

/-- Validity of the save-xy point field: the source check
`point not in valid_points` with `valid_points = ['1', '2', '3']`
(endpoints.py lines 319-321). -/
def xy_point_ok : Option PointName → Bool
  | some PointName.p1 => true
  | some PointName.p2 => true
  | some PointName.p3 => true
  | _ => false

/-- Store a measured value under the given point key
(`session.points[point] = (x, y)`, endpoints.py line 338). -/
def set_point (s : Session) (pn : PointName) (v : ℚ × ℚ) : Session :=
  match pn with
  | PointName.p1 => { s with point1 := some v }
  | PointName.p2 => { s with point2 := some v }
  | PointName.p3 => { s with point3 := some v }
  | _ => s

/-- Read a recorded point by its key. -/
def point_get (s : Session) : PointName → Option (ℚ × ℚ)
  | PointName.p1 => s.point1
  | PointName.p2 => s.point2
  | PointName.p3 => s.point3
  | _ => none

/-- `save_xy` (endpoints.py lines 305-342): point validity, then the
selected-mount check, then the measured position is read, the left-mount
offset is added back, and for a multi-channel pipette `Y_OFFSET_MULTI` is
subtracted from y before the point is recorded.  The channel count of the
stored pipette is fetched here (a missing entry raises, surfaced as 500). -/
def save_xy (env : CalEnv) (s : Session) (st : SysState) (data : ReqData) :
    Resp × SysState :=
  if xy_point_ok data.point = false then ((400, Msg.save_point_invalid), st)
  else
    match s.current_mount with
    | none => ((400, Msg.mount_not_set), st)
    | some m =>
      match s.pip_channels, data.point with
      | some ch, some pn =>
        let r := position_reading env st m ch
        let mo := if m = Mnt.Z then st.config.mount_offset else ((0 : ℚ), (0 : ℚ), (0 : ℚ))
        let x := r.1 + mo.1
        let y0 := r.2.1 + mo.2.1
        let y := if ch ≠ 1 then y0 - env.y_offset_multi else y0
        ((200, Msg.point_saved), { st with session := some (set_point s pn (x, y)) })
      | _, _ => ((500, Msg.internal_exception), st)

/-- `attach_tip` (endpoints.py lines 155-187): the pipette for the selected
mount is fetched first (a missing entry raises, 500); a falsy `tipLength`
(missing or zero) yields 400; otherwise the session's tip length is set. -/
def attach_tip (s : Session) (st : SysState) (data : ReqData) : Resp × SysState :=
  match s.pip_channels with
  | none => ((500, Msg.internal_exception), st)
  | some _ =>
    match data.tipLength with
    | none => ((400, Msg.tip_length_required), st)
    | some l =>
      if l = 0 then ((400, Msg.tip_length_required), st)
      else
        ((200, Msg.tip_length_set),
         { st with session := some { s with tip_length := some l } })

/-- `detach_tip` (endpoints.py lines 190-212): the pipette is fetched (a
missing entry raises, 500); `pipette._remove_tip(session.tip_length)` with
no recorded tip length raises on `None` arithmetic (500); otherwise the
session's tip length is cleared. -/
def detach_tip (s : Session) (st : SysState) : Resp × SysState :=
  match s.pip_channels with
  | none => ((500, Msg.internal_exception), st)
  | some _ =>
    match s.tip_length with
    | none => ((500, Msg.internal_exception), st)
    | some _ =>
        ((200, Msg.tip_removed),
         { st with session := some { s with tip_length := none } })

/-- `save_z` (endpoints.py lines 345-367): a falsy recorded tip length
(missing or zero) yields 400; otherwise the measured z minus the tip length
plus the model's z offset is recorded.  A missing `current_mount` or
`current_model` raises in `position` / `pipette_config.load` (500). -/
def save_z (env : CalEnv) (s : Session) (st : SysState) : Resp × SysState :=
  if s.tip_length.getD 0 = 0 then ((400, Msg.tip_length_not_set), st)
  else
    match s.current_mount, s.current_model with
    | some m, some mdl =>
      let actual_z := (position_reading env st m (s.pip_channels.getD 1)).2.2
      let zv := actual_z - s.tip_length.getD 0 + env.model_offset_z mdl
      ((200, Msg.z_saved), { st with session := some { s with z_value := some zv } })
    | _, _ => ((500, Msg.internal_exception), st)

/-- Determinant of a 3x3 matrix given row by row. -/
def det3 (a b c d e f g h i : ℚ) : ℚ :=
  a * (e * i - f * h) - b * (d * i - f * g) + c * (d * h - e * g)

/-- Modelled from the spec: `linal.solve(expected, actual)` — the three
point pairs exactly determine the 2x3 affine system, solved (Cramer's rule)
rather than merely fitted; the result is the homogeneous 3x3 matrix
`[[a, b, c], [d, e, f], [0, 0, 1]]` with `(a b; d e)` the linear part and
`(c, f)` the translation mapping expected points to measured points. -/
def solve (e1 e2 e3 a1 a2 a3 : ℚ × ℚ) : List (List ℚ) :=
  let dd := det3 e1.1 e1.2 1 e2.1 e2.2 1 e3.1 e3.2 1
  let ca := det3 a1.1 e1.2 1 a2.1 e2.2 1 a3.1 e3.2 1 / dd
  let cb := det3 e1.1 a1.1 1 e2.1 a2.1 1 e3.1 a3.1 1 / dd
  let cc := det3 e1.1 e1.2 a1.1 e2.1 e2.2 a2.1 e3.1 e3.2 a3.1 / dd
  let cd := det3 a1.2 e1.2 1 a2.2 e2.2 1 a3.2 e3.2 1 / dd
  let ce := det3 e1.1 a1.2 1 e2.1 a2.2 1 e3.1 a3.2 1 / dd
  let cf := det3 e1.1 e1.2 a1.2 e2.1 e2.2 a2.2 e3.1 e3.2 a3.2 / dd
  [[ca, cb, cc], [cd, ce, cf], [0, 0, 1]]

/-- Insert an element at the given index of a list (`numpy.insert`). -/
def insert_at : ℕ → α → List α → List α
  | 0, x, ys => x :: ys
  | _ + 1, x, [] => [x]
  | n + 1, x, y :: ys => y :: insert_at n x ys

/-- Modelled from the spec: `linal.add_z(xy, z)` — extend the 2-D transform
to 3 dimensions by inserting a zero column at index 2 and the row
`[0, 0, 1, z]` at index 2, placing the measured z offset in the translation
component.  The z slot keeps the (possibly missing) Python value. -/
def add_z (m : List (List ℚ)) (z : Option ℚ) : List (List (Option ℚ)) :=
  insert_at 2 [some 0, some 0, some 1, z]
    (m.map (fun row => (insert_at 2 (0 : ℚ) row).map some))

/-- `save_transform` (endpoints.py lines 370-404): if any of the three
recorded points is `None` the command fails with 400 and no effect;
otherwise the affine transform from the expected points to the measured
points is solved, extended with the session's (unchecked) z value, written
into `robot.config.gantry_calibration`, and the new config is passed to
`save_deck_calibration` and `backup_configuration`. -/
def save_transform (env : CalEnv) (s : Session) (st : SysState) :
    Resp × SysState :=
  if s.point1 = none ∨ s.point2 = none ∨ s.point3 = none then
    ((400, Msg.points_not_saved), st)
  else
    let a1 := s.point1.getD (0, 0)
    let a2 := s.point2.getD (0, 0)
    let a3 := s.point3.getD (0, 0)
    let flat_matrix := solve env.expected1 env.expected2 env.expected3 a1 a2 a3
    let calibration_matrix := add_z flat_matrix s.z_value
    let config' := { st.config with gantry_calibration := calibration_matrix }
    ((200, Msg.config_saved),
     { st with
         config := config',
         saved_config := some config',
         backup_config := some config' })

/-- `release` (endpoints.py lines 407-424): the session is dropped (the
instrument removals act on the robot's instrument registry, outside the
state modelled here). -/
def release (st : SysState) : Resp × SysState :=
  ((200, Msg.session_released), { st with session := none })

/-- The router (endpoints.py lines 429-436). -/
def run_command (env : CalEnv) (c : Command) (s : Session) (st : SysState)
    (data : ReqData) : Resp × SysState :=
  match c with
  | Command.jog => run_jog s st data
  | Command.move_cmd => move env s st data
  | Command.save_xy_cmd => save_xy env s st data
  | Command.attach_tip_cmd => attach_tip s st data
  | Command.detach_tip_cmd => detach_tip s st
  | Command.save_z_cmd => save_z env s st
  | Command.save_transform_cmd => save_transform env s st
  | Command.release_cmd => release st

/-- `dispatch` (endpoints.py lines 478-512): no session yields 418; a
missing token or command yields 400 (raised as `AssertionError` and caught);
a token mismatch yields 403; an unrecognized command name raises `KeyError`
in the router lookup, caught as 500; otherwise the routed handler runs. -/
def dispatch (env : CalEnv) (st : SysState) (data : ReqData) : Resp × SysState :=
  match st.session with
  | none => ((418, Msg.session_must_be_started), st)
  | some s =>
    match data.token with
    | none => ((400, Msg.token_required), st)
    | some tok =>
      match data.command with
      | CmdField.absent => ((400, Msg.command_required), st)
      | CmdField.unknown =>
          if tok = s.id then ((500, Msg.internal_exception), st)
          else ((403, Msg.invalid_token), st)
      | CmdField.known c =>
          if tok = s.id then run_command env c s st data
          else ((403, Msg.invalid_token), st)

/-- `set_current_mount` (endpoints.py lines 105-152): prefer a
single-channel pipette on the right, then a single-channel on the left,
then any right pipette, then any left pipette.  A side contributes a
pipette only when its model string is recognized by `pipette_config`.
Returns the chosen mount letter, model, and channel count. -/
def set_current_mount (env : CalEnv) (left right : Option ℕ) :
    Option (Mnt × ℕ × ℕ) :=
  let leftP : Option (ℕ × ℕ) :=
    match left with
    | some mdl =>
      match env.config_channels mdl with
      | some ch => some (mdl, ch)
      | none => none
    | none => none
  let rightP : Option (ℕ × ℕ) :=
    match right with
    | some mdl =>
      match env.config_channels mdl with
      | some ch => some (mdl, ch)
      | none => none
    | none => none
  match rightP with
  | some (mdl, ch) =>
    if ch = 1 then some (Mnt.A, mdl, ch)
    else
      match leftP with
      | some (lmdl, lch) =>
        if lch = 1 then some (Mnt.Z, lmdl, lch) else some (Mnt.A, mdl, ch)
      | none => some (Mnt.A, mdl, ch)
  | none =>
    match leftP with
    | some (lmdl, lch) => some (Mnt.Z, lmdl, lch)
    | none => none

/-- `SessionManager.__init__` (endpoints.py lines 66-76): a fresh empty
session, and `robot.config.gantry_calibration` replaced by the built-in
default configuration. -/
def session_manager_init (fresh_id : ℕ) (st : SysState) : Session × SysState :=
  ({ id := fresh_id, current_mount := none, current_model := none,
     tip_length := none, point1 := none, point2 := none, point3 := none,
     z_value := none, pip_channels := none },
   { st with config :=
       { st.config with gantry_calibration := default_gantry_calibration } })

/-- `init_pipette` (endpoints.py lines 84-102): choose the pipette via
`set_current_mount`; when one is found the session records its mount, model
and channel count and the result is non-empty. -/
def init_pipette (env : CalEnv) (left right : Option ℕ) (s : Session) :
    Session × Bool :=
  match set_current_mount env left right with
  | some (m, mdl, ch) =>
      ({ s with current_mount := some m, current_model := some mdl,
                pip_channels := some ch }, true)
  | none => (s, false)

/-- `start` (endpoints.py lines 439-475): with no live session or with the
force flag, a fresh `SessionManager` is built and a pipette chosen — 201
with the new token on success, 403 (and no session) when no pipette is
recognized; otherwise 409 and the live session is untouched.  `fresh_id` is
the value of `uuid1()` for this call; `left` / `right` are the attached
model names. -/
def start (env : CalEnv) (fresh_id : ℕ) (force : Bool) (left right : Option ℕ)
    (st : SysState) : Resp × SysState :=
  if st.session = none ∨ force = true then
    let p := session_manager_init fresh_id st
    let q := init_pipette env left right p.1
    if q.2 then
      ((201, Msg.token_issued fresh_id), { p.2 with session := some q.1 })
    else
      ((403, Msg.pipette_not_recognized), { p.2 with session := none })
  else ((409, Msg.session_in_progress), st)

/-- The y offset applied by `Robot.move_to` when the placeable is a trough
(robot.py lines 624-630): the target offset is shifted by `Y_OFFSET_MULTI`
in y. -/
def trough_well_offset (is_trough : Bool) (off : ℚ × ℚ × ℚ) (y_off : ℚ) :
    ℚ × ℚ × ℚ :=
  if is_trough then (off.1, off.2.1 + y_off, off.2.2) else off

/-- The y adjustment applied by
`Robot.calibrate_container_with_instrument` for troughs (robot.py lines
1009-1020): `Y_OFFSET_MULTI` is backed out of the measured delta. -/
def calibrate_container_delta_y (is_trough : Bool) (delta_y y_off : ℚ) : ℚ :=
  if is_trough then delta_y - y_off else delta_y

/-!  ## Concrete fixtures used by counterexamples and witnesses  -/

/-- A height environment with deck max 50 and instrument limit 100. -/
def arc_env_cex : ArcEnv :=
  { max_placeable_height_on_deck := fun _ => 0,
    max_deck_height := 50,
    instr_max_deck_height := 100 }

/-- A height environment with per-container height 30. -/
def arc_env_w : ArcEnv :=
  { max_placeable_height_on_deck := fun _ => 30,
    max_deck_height := 50,
    instr_max_deck_height := 100 }

/-- A fresh planner state: no sticky container or instrument. -/
def planner0 : RobotPlanner :=
  { prev_container := none, previous_instrument := none, use_safest_height := false }

/-- A concrete driver state with distinguishable per-axis values. -/
def smoothie0 : SmoothieSt :=
  { position := fun _ => 0, homed := fun _ => false, current := fun _ => 3,
    active_current := fun _ => 5, dwelling_current := fun _ => 1 }

/-!  ## Theorems for the planner claims  -/

/-- Claim C2, counterexample: for the arc move with destination z = 200,
instrument z = 0 and an instrument maximum reachable height of 100, the
clamped travel height is 100, which is strictly below
`max(destination_z, instrument_current_z) = 200` — the claimed lower bound
fails because the upper clamp is applied after the lower one. -/
theorem arc_height_lower_bound_cex :
    arc_travel_height arc_env_cex planner0 (0, 0, 200) none 0 = 100 ∧
    ¬ (max (200 : ℚ) 0 ≤ arc_travel_height arc_env_cex planner0 (0, 0, 200) none 0) := by
  constructor
  · norm_num [arc_travel_height, arc_top_raw, arc_top_default, arc_env_cex,
      planner0, TIP_CLEARANCE_DECK]
  · norm_num [arc_travel_height, arc_top_raw, arc_top_default, arc_env_cex,
      planner0, TIP_CLEARANCE_DECK]

/-- Claim C2 (amended): for every arc-strategy move the computed travel
height is at most the instrument's maximum reachable height; and whenever
`max(destination_z, instrument_current_z)` does not itself exceed that
maximum, the travel height is also at least
`max(destination_z, instrument_current_z)`.  The first arc waypoint rises
to exactly this height. -/
theorem arc_travel_height_bounds (env : ArcEnv) (st : RobotPlanner)
    (dest : ℚ × ℚ × ℚ) (thisC : Option ℕ) (pip_z : ℚ) :
    arc_travel_height env st dest thisC pip_z ≤ env.instr_max_deck_height ∧
    (max dest.2.2 pip_z ≤ env.instr_max_deck_height →
      max dest.2.2 pip_z ≤ arc_travel_height env st dest thisC pip_z) ∧
    (create_arc env st dest thisC pip_z).1.head? =
      some (Waypoint.upZ (arc_travel_height env st dest thisC pip_z)) :=
  ⟨min_le_right _ _, fun h => le_min (le_max_right _ _) h, rfl⟩

/-- Witness for `arc_travel_height_bounds` at a concrete in-range input. -/
theorem arc_travel_height_bounds_witness :
    arc_travel_height arc_env_cex planner0 (0, 0, 10) none 5 ≤ 100 ∧
    max (10 : ℚ) 5 ≤ arc_travel_height arc_env_cex planner0 (0, 0, 10) none 5 := by
  have h := arc_travel_height_bounds arc_env_cex planner0 (0, 0, 10) none 5
  exact ⟨h.1, h.2.1 (by norm_num [arc_env_cex])⟩

/-- Claim C5: the pre-clamp travel height of an arc move follows the
priority order: same container as the previous move gives that container's
local max height plus 5 mm; otherwise safest-height mode gives the
instrument's maximum reachable deck height; otherwise the global deck max
height plus 20 mm.  The trajectory rises to the clamp of this value, then
translates, then descends. -/
theorem arc_height_policy (env : ArcEnv) (st : RobotPlanner) (thisC : Option ℕ) :
    (∀ c, thisC = some c → st.prev_container = some c →
      arc_top_raw env st thisC = env.max_placeable_height_on_deck c + 5) ∧
    ((∀ c, thisC = some c → st.prev_container ≠ some c) →
      st.use_safest_height = true →
      arc_top_raw env st thisC = env.instr_max_deck_height) ∧
    ((∀ c, thisC = some c → st.prev_container ≠ some c) →
      st.use_safest_height = false →
      arc_top_raw env st thisC = env.max_deck_height + 20) ∧
    (∀ dest pip_z, (create_arc env st dest thisC pip_z).1 =
      [Waypoint.upZ (min (max (arc_top_raw env st thisC) (max dest.2.2 pip_z))
          env.instr_max_deck_height),
       Waypoint.xy dest.1 dest.2.1, Waypoint.downZ dest.2.2]) := by
  refine ⟨?_, ?_, ?_, fun dest pip_z => rfl⟩
  · intro c hc hp
    subst hc
    simp [arc_top_raw, hp, TIP_CLEARANCE_LABWARE]
  · intro hne hs
    cases thisC with
    | none => simp [arc_top_raw, arc_top_default, hs]
    | some c =>
        have h := hne c rfl
        simp [arc_top_raw, arc_top_default, hs, h]
  · intro hne hs
    cases thisC with
    | none => simp [arc_top_raw, arc_top_default, hs, TIP_CLEARANCE_DECK]
    | some c =>
        have h := hne c rfl
        simp [arc_top_raw, arc_top_default, hs, h, TIP_CLEARANCE_DECK]

/-- Witness for `arc_height_policy`, one instance per policy branch. -/
theorem arc_height_policy_witness :
    arc_top_raw arc_env_w
      { prev_container := some 4, previous_instrument := none,
        use_safest_height := false } (some 4) = 35 ∧
    arc_top_raw arc_env_w
      { prev_container := none, previous_instrument := none,
        use_safest_height := true } (some 4) = 100 ∧
    arc_top_raw arc_env_w planner0 none = 70 := by
  refine ⟨?_, ?_, ?_⟩
  · have h := (arc_height_policy arc_env_w
      { prev_container := some 4, previous_instrument := none,
        use_safest_height := false } (some 4)).1 4 rfl rfl
    rw [h]; norm_num [arc_env_w]
  · have h := (arc_height_policy arc_env_w
      { prev_container := none, previous_instrument := none,
        use_safest_height := true } (some 4)).2.1 (fun c _ => by simp) rfl
    rw [h]; norm_num [arc_env_w]
  · have h := (arc_height_policy arc_env_w planner0 none).2.2.1
      (fun c hc => by simp at hc) rfl
    rw [h]; norm_num [arc_env_w]

/-- Claim C10: `Robot.home` clears both the sticky previous-container and
previous-instrument planner state, so the first arc move after homing (even
after `move_to`'s previous-instrument bookkeeping) never takes the reduced
same-container height: its pre-clamp height is the safest-height or
deck-plus-clearance policy value, and the trajectory rises to that value
clamped. -/
theorem home_clears_planner_state (env : ArcEnv) (st : RobotPlanner) (inst : ℕ)
    (dest : ℚ × ℚ × ℚ) (thisC : Option ℕ) (pip_z : ℚ) :
    (home st).prev_container = none ∧
    (home st).previous_instrument = none ∧
    arc_top_raw env (move_to_update (home st) inst) thisC =
      (if st.use_safest_height then env.instr_max_deck_height
       else env.max_deck_height + 20) ∧
    (create_arc env (move_to_update (home st) inst) dest thisC pip_z).1.head? =
      some (Waypoint.upZ
        (min (max (if st.use_safest_height then env.instr_max_deck_height
              else env.max_deck_height + 20) (max dest.2.2 pip_z))
          env.instr_max_deck_height)) := by
  have h3 : arc_top_raw env (move_to_update (home st) inst) thisC =
      (if st.use_safest_height then env.instr_max_deck_height
       else env.max_deck_height + 20) := by
    cases thisC <;>
      simp [arc_top_raw, arc_top_default, move_to_update, home, TIP_CLEARANCE_DECK]
  refine ⟨rfl, rfl, h3, ?_⟩
  simp [create_arc, arc_travel_height, h3]

/-!  ## Theorems for the driver claims  -/

/-- Claim C3: when a move's acknowledgement reports a hard-limit alarm on
axis `a`, the driver issues exactly — after the single move request, which
is not retried — clear-alarm, home-`a`-only at homing current, restore
`a`'s current to dwelling, and a position re-query for all axes, in that
order, and then surfaces an error; the homed flag and current of every
other axis are unchanged. -/
theorem limit_switch_recovery (st : SmoothieSt) (target : SAxis → Option ℚ)
    (a : SAxis) (tp : SAxis → ℚ) :
    (driver_move st target (MoveAck.hard_limit a) tp).1 =
      [SCmd.move_request, SCmd.clear_alarm, SCmd.home_at_homing_current a,
       SCmd.dwell_current_cmd a, SCmd.query_position] ∧
    (driver_move st target (MoveAck.hard_limit a) tp).2.2 = Except.error () ∧
    (driver_move st target (MoveAck.hard_limit a) tp).2.1.position = tp ∧
    (driver_move st target (MoveAck.hard_limit a) tp).2.1.homed a = true ∧
    (driver_move st target (MoveAck.hard_limit a) tp).2.1.current a =
      st.dwelling_current a ∧
    (∀ x, x ≠ a →
      (driver_move st target (MoveAck.hard_limit a) tp).2.1.homed x = st.homed x ∧
      (driver_move st target (MoveAck.hard_limit a) tp).2.1.current x = st.current x) := by
  refine ⟨rfl, rfl, rfl, by simp [driver_move, recover_from_limit],
    by simp [driver_move, recover_from_limit], ?_⟩
  intro x hx
  constructor <;> simp [driver_move, recover_from_limit, hx]

/-- Witness for `limit_switch_recovery`: a fault on axis C leaves axis A's
homed flag and current untouched and produces the exact recovery trace. -/
theorem limit_switch_recovery_witness :
    (driver_move smoothie0 (fun _ => none) (MoveAck.hard_limit SAxis.C)
        (fun _ => 7)).1 =
      [SCmd.move_request, SCmd.clear_alarm, SCmd.home_at_homing_current SAxis.C,
       SCmd.dwell_current_cmd SAxis.C, SCmd.query_position] ∧
    (driver_move smoothie0 (fun _ => none) (MoveAck.hard_limit SAxis.C)
        (fun _ => 7)).2.1.homed SAxis.A = false ∧
    (driver_move smoothie0 (fun _ => none) (MoveAck.hard_limit SAxis.C)
        (fun _ => 7)).2.1.current SAxis.A = 3 := by
  have h := limit_switch_recovery smoothie0 (fun _ => none) SAxis.C (fun _ => 7)
  have hA := h.2.2.2.2.2 SAxis.A (by decide)
  exact ⟨h.1, hA.1, hA.2⟩

/-- Claim C4: a transport failing with a transient no-response exactly twice
and then succeeding yields the successful response (all retries
transparent, three attempts made); a transport failing on every attempt
surfaces the transient-communication error after exactly the fixed budget
of attempts, with no attempt beyond it. -/
theorem send_command_retry (t : ℕ → Except Unit ℕ) (s : ℕ) :
    (t 0 = Except.error () → t 1 = Except.error () → t 2 = Except.ok s →
      send_command t = (Except.ok s, 3)) ∧
    ((∀ i, t i = Except.error ()) →
      send_command t = (Except.error (), DRIVER_MAX_ATTEMPTS)) := by
  constructor
  · intro h0 h1 h2
    simp [send_command, DRIVER_MAX_ATTEMPTS, send_command_attempts, h0, h1, h2]
  · intro h
    simp [send_command, DRIVER_MAX_ATTEMPTS, send_command_attempts, h 0, h 1, h 2]

/-- Witness for `send_command_retry` with concrete transports. -/
theorem send_command_retry_witness :
    send_command (fun i => if i < 2 then Except.error () else Except.ok 9) =
      (Except.ok 9, 3) ∧
    send_command (fun _ => Except.error ()) =
      (Except.error (), DRIVER_MAX_ATTEMPTS) := by
  constructor
  · exact (send_command_retry
      (fun i => if i < 2 then Except.error () else Except.ok 9) 9).1 rfl rfl rfl
  · exact (send_command_retry (fun _ => Except.error ()) 0).2 (fun _ => rfl)

/-!  ## Calibration fixtures  -/

/-- A concrete environment: multi-channel y offset 2, expected dots at
(0,0), (10,0), (0,10), and a pipette catalog where model 1 has one channel
and model 8 has eight. -/
def cal_env0 : CalEnv :=
  { y_offset_multi := 2,
    expected1 := (0, 0), expected2 := (10, 0), expected3 := (0, 10),
    z_pos := (0, 0, 0),
    model_offset_z := fun _ => 0,
    config_channels := fun mdl =>
      if mdl = 1 then some 1 else if mdl = 8 then some 8 else none }

/-- A session with all three points recorded but no z value. -/
def sess_all_points : Session :=
  { id := 7, current_mount := some Mnt.A, current_model := some 1,
    tip_length := some 10,
    point1 := some (1, 1), point2 := some (11, 1), point3 := some (1, 11),
    z_value := none, pip_channels := some 1 }

/-- `sess_all_points` with a recorded z value. -/
def sess_z : Session := { sess_all_points with z_value := some (-5) }

/-- A multi-channel session on the left mount with no recorded points. -/
def sess_multi : Session :=
  { id := 7, current_mount := some Mnt.Z, current_model := some 8,
    tip_length := some 10,
    point1 := none, point2 := none, point3 := none,
    z_value := none, pip_channels := some 8 }

/-- A robot config with a non-default gantry calibration. -/
def base_config : RobotConfig :=
  { gantry_calibration := [[some 2]], mount_offset := (3, 2, 1) }

/-- System state holding `sess_all_points`. -/
def st_c1 : SysState :=
  { session := some sess_all_points, config := base_config,
    saved_config := none, backup_config := none, instr_pos := (0, 0, 0) }

/-- System state holding `sess_multi`. -/
def st_multi : SysState := { st_c1 with session := some sess_multi }

/-- A jog request with matching token, valid axis `x`, invalid direction 0
and missing step. -/
def req_c6 : ReqData :=
  { token := some 7, command := CmdField.known Command.jog,
    axis := some JAxis.jx, direction := some 0, step := none,
    point := none, tipLength := none }

/-- A move / save-xy request for point `'1'` with matching token. -/
def req_move1 : ReqData :=
  { token := some 7, command := CmdField.known Command.move_cmd,
    axis := none, direction := none, step := none,
    point := some PointName.p1, tipLength := none }

/-- The configuration `save_transform` writes: the source's
`robot.config._replace(gantry_calibration=...)` with the z-extended solved
transform. -/
def save_transform_config (env : CalEnv) (st : SysState)
    (q1 q2 q3 : ℚ × ℚ) (z : Option ℚ) : RobotConfig :=
  let m := add_z (solve env.expected1 env.expected2 env.expected3 q1 q2 q3) z
  { st.config with gantry_calibration := m }

/-- The configuration written by `save_transform` for `sess_z` in
`st_c1` under `cal_env0`. -/
def c1_new_config : RobotConfig :=
  save_transform_config cal_env0 st_c1 (1, 1) (11, 1) (1, 11) (some (-5))

/-!  ## Theorems for the calibration claims  -/

/-- Claim C1, counterexample: with all three XY points recorded but the Z
value missing, `save_transform` does not fail with a validation error — it
returns 200 and persists a configuration (the z slot of the written matrix
is the missing value).  The source only checks `session.points`, never
`session.z_value`. -/
theorem save_transform_missing_z_cex :
    sess_all_points.z_value = none ∧
    (save_transform cal_env0 sess_all_points st_c1).1.1 = 200 ∧
    (save_transform cal_env0 sess_all_points st_c1).2.saved_config ≠ none := by
  refine ⟨rfl, ?_, ?_⟩
  · simp [save_transform, sess_all_points]
  · simp [save_transform, sess_all_points]

/-- Claim C1 (amended): `save_transform` fails with a 400 validation error
and no persistence side effect exactly when one of the three XY points is
missing (the Z value is not validated); when all three points are present
it solves the affine transform from the expected points to the measured
points, writes its z-extension (carrying the session's possibly-missing z
value) as the new gantry calibration, and passes the new configuration to
the save and backup routines. -/
theorem save_transform_spec (env : CalEnv) (s : Session) (st : SysState) :
    ((s.point1 = none ∨ s.point2 = none ∨ s.point3 = none) →
      save_transform env s st = ((400, Msg.points_not_saved), st)) ∧
    (∀ q1 q2 q3, s.point1 = some q1 → s.point2 = some q2 → s.point3 = some q3 →
      save_transform env s st =
        ((200, Msg.config_saved),
         { st with
             config := save_transform_config env st q1 q2 q3 s.z_value,
             saved_config := some (save_transform_config env st q1 q2 q3 s.z_value),
             backup_config :=
               some (save_transform_config env st q1 q2 q3 s.z_value) })) := by
  constructor
  · intro h
    unfold save_transform
    rw [if_pos h]
  · intro q1 q2 q3 h1 h2 h3
    have hcond : ¬ (s.point1 = none ∨ s.point2 = none ∨ s.point3 = none) := by
      simp [h1, h2, h3]
    unfold save_transform
    rw [if_neg hcond]
    simp [h1, h2, h3, save_transform_config]

/-- Witness for `save_transform_spec`: a missing point yields 400 with no
state change; with all points and a z of -5 the solved transform is
persisted and backed up. -/
theorem save_transform_spec_witness :
    save_transform cal_env0 { sess_all_points with point2 := none } st_c1 =
      ((400, Msg.points_not_saved), st_c1) ∧
    save_transform cal_env0 sess_z st_c1 =
      ((200, Msg.config_saved),
       { st_c1 with
           config := c1_new_config,
           saved_config := some c1_new_config,
           backup_config := some c1_new_config }) := by
  constructor
  · exact (save_transform_spec cal_env0 _ st_c1).1 (Or.inr (Or.inl rfl))
  · exact (save_transform_spec cal_env0 sess_z st_c1).2 (1, 1) (11, 1) (1, 11)
      rfl rfl rfl

/-- Claim C6, counterexample: a jog request with a valid axis, the invalid
direction 0 and a missing step is answered with the direction (semantic)
error, not the step-presence error — the handler checks direction validity
before step presence, so command-specific field-presence checks do not all
precede semantic checks. -/
theorem dispatch_order_cex :
    (dispatch cal_env0 st_c1 req_c6).1 = (400, Msg.direction_invalid) ∧
    Msg.direction_invalid ≠ Msg.step_required := by
  constructor
  · rfl
  · decide

/-- Claim C6 (amended): dispatched commands are validated in the order
session existence, token presence, command presence, token match, then the
handler's own checks in their source order — for `jog`: axis validity, then
direction validity, then step presence (so a semantic check may precede a
presence check).  The first failing check determines the error and no later
check or command effect executes (the state is unchanged). -/
theorem dispatch_validation_order (env : CalEnv) (st : SysState) (data : ReqData) :
    (st.session = none →
      dispatch env st data = ((418, Msg.session_must_be_started), st)) ∧
    (∀ s, st.session = some s → data.token = none →
      dispatch env st data = ((400, Msg.token_required), st)) ∧
    (∀ s t, st.session = some s → data.token = some t →
      data.command = CmdField.absent →
      dispatch env st data = ((400, Msg.command_required), st)) ∧
    (∀ s t, st.session = some s → data.token = some t →
      data.command ≠ CmdField.absent → t ≠ s.id →
      dispatch env st data = ((403, Msg.invalid_token), st)) ∧
    (∀ s, st.session = some s → data.token = some s.id →
      data.command = CmdField.known Command.jog → jog_axis_ok data.axis = false →
      dispatch env st data = ((400, Msg.axis_invalid), st)) ∧
    (∀ s, st.session = some s → data.token = some s.id →
      data.command = CmdField.known Command.jog → jog_axis_ok data.axis = true →
      direction_ok data.direction = false →
      dispatch env st data = ((400, Msg.direction_invalid), st)) ∧
    (∀ s, st.session = some s → data.token = some s.id →
      data.command = CmdField.known Command.jog → jog_axis_ok data.axis = true →
      direction_ok data.direction = true → data.step = none →
      dispatch env st data = ((400, Msg.step_required), st)) := by
  refine ⟨?_, ?_, ?_, ?_, ?_, ?_, ?_⟩
  · intro h; simp [dispatch, h]
  · intro s hs ht; simp [dispatch, hs, ht]
  · intro s t hs ht hc; simp [dispatch, hs, ht, hc]
  · intro s t hs ht hc hne
    cases hcmd : data.command with
    | absent => exact absurd hcmd hc
    | unknown => simp [dispatch, hs, ht, hcmd, hne]
    | known c => simp [dispatch, hs, ht, hcmd, hne]
  · intro s hs ht hc hax
    simp [dispatch, hs, ht, hc, run_command, run_jog, hax]
  · intro s hs ht hc hax hdir
    simp [dispatch, hs, ht, hc, run_command, run_jog, hax, hdir]
  · intro s hs ht hc hax hdir hstep
    simp [dispatch, hs, ht, hc, run_command, run_jog, hax, hdir, hstep]

/-- Witness for `dispatch_validation_order`: the no-session, token-mismatch
and missing-step branches at concrete inputs. -/
theorem dispatch_validation_order_witness :
    dispatch cal_env0 { st_c1 with session := none } req_c6 =
      ((418, Msg.session_must_be_started), { st_c1 with session := none }) ∧
    dispatch cal_env0 st_c1 { req_c6 with token := some 8 } =
      ((403, Msg.invalid_token), st_c1) ∧
    dispatch cal_env0 st_c1 { req_c6 with direction := some 1 } =
      ((400, Msg.step_required), st_c1) := by
  refine ⟨?_, ?_, ?_⟩
  · exact (dispatch_validation_order cal_env0 _ req_c6).1 rfl
  · exact (dispatch_validation_order cal_env0 st_c1 _).2.2.2.1
      sess_all_points 8 rfl rfl (by decide) (by decide)
  · exact (dispatch_validation_order cal_env0 st_c1 _).2.2.2.2.2.2
      sess_all_points rfl rfl rfl rfl rfl rfl

/-- Claim C7: at most one session exists process-wide.  A `start` while a
session is live and without the force flag is rejected with 409 and leaves
everything unchanged; with force the resulting session is either absent or
a fresh one carrying the new token; dispatched commands are rejected with
418 when no session is active and with 403 (and no effect) when the token
differs from the live session's id. -/
theorem single_session_ownership (env : CalEnv) (fid : ℕ) (force : Bool)
    (l r : Option ℕ) (st : SysState) (data : ReqData) :
    (∀ s, st.session = some s → force = false →
      start env fid force l r st = ((409, Msg.session_in_progress), st)) ∧
    (force = true →
      (start env fid force l r st).2.session = none ∨
      ∃ s', (start env fid force l r st).2.session = some s' ∧ s'.id = fid) ∧
    (st.session = none →
      dispatch env st data = ((418, Msg.session_must_be_started), st)) ∧
    (∀ s t, st.session = some s → data.token = some t → t ≠ s.id →
      data.command ≠ CmdField.absent →
      dispatch env st data = ((403, Msg.invalid_token), st)) := by
  refine ⟨?_, ?_, ?_, ?_⟩
  · intro s hs hf
    subst hf
    have hcond : ¬ (st.session = none ∨ (false : Bool) = true) := by simp [hs]
    unfold start
    rw [if_neg hcond]
  · intro hf
    subst hf
    unfold start
    rw [if_pos (Or.inr rfl)]
    cases h : set_current_mount env l r with
    | none => left; simp [init_pipette, session_manager_init, h]
    | some v =>
        obtain ⟨m2, mdl, ch⟩ := v
        right
        refine ⟨{ id := fid, current_mount := some m2, current_model := some mdl,
                  tip_length := none, point1 := none, point2 := none,
                  point3 := none, z_value := none, pip_channels := some ch },
                ?_, rfl⟩
        simp [init_pipette, session_manager_init, h]
  · intro h; simp [dispatch, h]
  · intro s t hs ht hne hc
    cases hcmd : data.command with
    | absent => exact absurd hcmd hc
    | unknown => simp [dispatch, hs, ht, hcmd, hne]
    | known c => simp [dispatch, hs, ht, hcmd, hne]

/-- Witness for `single_session_ownership` at concrete inputs. -/
theorem single_session_ownership_witness :
    start cal_env0 9 false none none st_c1 =
      ((409, Msg.session_in_progress), st_c1) ∧
    ((start cal_env0 9 true (some 1) none st_c1).2.session = none ∨
      ∃ s', (start cal_env0 9 true (some 1) none st_c1).2.session = some s' ∧
        s'.id = 9) ∧
    dispatch cal_env0 { st_c1 with session := none } req_move1 =
      ((418, Msg.session_must_be_started), { st_c1 with session := none }) ∧
    dispatch cal_env0 st_c1 { req_move1 with token := some 8 } =
      ((403, Msg.invalid_token), st_c1) := by
  refine ⟨?_, ?_, ?_, ?_⟩
  · exact (single_session_ownership cal_env0 9 false none none st_c1
      req_move1).1 sess_all_points rfl rfl
  · exact (single_session_ownership cal_env0 9 true (some 1) none st_c1
      req_move1).2.1 rfl
  · exact (single_session_ownership cal_env0 9 false none none
      { st_c1 with session := none } req_move1).2.2.1 rfl
  · exact (single_session_ownership cal_env0 9 false none none st_c1
      { req_move1 with token := some 8 }).2.2.2 sess_all_points 8 rfl rfl
      (by decide) (by decide)

/-- Claim C8: composing a calibration `move` to a named point with the
subsequent `save_xy` removes the multi-channel lateral offset: the saved
coordinates are exactly the target point's XY — independent of the channel
count, i.e. equal to what a single-channel instrument at the same physical
point records.  The trough-container calibration adjustment likewise backs
out exactly the y offset added by `move_to`. -/
theorem multi_offset_roundtrip (env : CalEnv) (st : SysState) (s : Session)
    (m : Mnt) (ch : ℕ) (pn : PointName) (pt : ℚ × ℚ × ℚ) (d1 d2 : ReqData)
    (hm : s.current_mount = some m) (hch : s.pip_channels = some ch)
    (hp : safe_points env pn = some pt) (hv : xy_point_ok (some pn) = true)
    (hd1 : d1.point = some pn) (hd2 : d2.point = some pn) :
    (move env s st d1).1.1 = 200 ∧
    (save_xy env s (move env s st d1).2 d2).1.1 = 200 ∧
    point_get (((save_xy env s (move env s st d1).2 d2).2.session).getD s) pn =
      some (pt.1, pt.2.1) ∧
    (∀ t off yo,
      calibrate_container_delta_y t (trough_well_offset t off yo).2.1 yo =
        off.2.1) := by
  have hmove : move env s st d1 =
      ((200, Msg.moved),
       { st with instr_pos :=
           if ch ≠ 1 then (pt.1, pt.2.1 + env.y_offset_multi * 2, pt.2.2)
           else pt }) := by
    simp [move, hd1, hp, hch]
  refine ⟨by rw [hmove], ?_, ?_, ?_⟩
  · rw [hmove]
    by_cases hc : ch = 1 <;> cases m <;>
      simp [save_xy, position_reading, hm, hch, hd2, hv, hc]
  · rw [hmove]
    have hpg : ∀ v : ℚ × ℚ, point_get (set_point s pn v) pn = some v := by
      intro v
      cases pn <;> simp [set_point, point_get] <;> simp [xy_point_ok] at hv
    by_cases hc : ch = 1 <;> cases m <;>
      simp [save_xy, position_reading, hm, hch, hd2, hv, hc, hpg] <;>
      ring_nf
  · intro t off yo
    cases t <;> simp [calibrate_container_delta_y, trough_well_offset]

/-- Witness for `multi_offset_roundtrip`: an 8-channel pipette on the left
mount moving to point `'1'` and saving it records exactly the safe point's
XY (5, 5). -/
theorem multi_offset_roundtrip_witness :
    point_get
      (((save_xy cal_env0 sess_multi
          (move cal_env0 sess_multi st_multi req_move1).2 req_move1).2.session).getD
        sess_multi) PointName.p1 = some (5, 5) := by
  have h := multi_offset_roundtrip cal_env0 st_multi sess_multi Mnt.Z 8
    PointName.p1 (5, 5, 10) req_move1 req_move1 rfl rfl
    (by norm_num [safe_points, cal_env0]) rfl rfl rfl
  exact h.2.2.1

/-- Claim C9: constructing a calibration session — every forced `start`,
and every `start` that answers 201 — replaces the loaded gantry calibration
with the built-in default configuration. -/
theorem session_start_resets_gantry (env : CalEnv) (fid : ℕ) (force : Bool)
    (l r : Option ℕ) (st : SysState) :
    (force = true →
      (start env fid force l r st).2.config.gantry_calibration =
        default_gantry_calibration) ∧
    ((start env fid force l r st).1.1 = 201 →
      (start env fid force l r st).2.config.gantry_calibration =
        default_gantry_calibration) := by
  constructor
  · intro hf
    subst hf
    unfold start
    rw [if_pos (Or.inr rfl)]
    cases h : set_current_mount env l r <;>
      simp [init_pipette, session_manager_init, h]
  · intro h201
    by_cases hc : st.session = none ∨ force = true
    · unfold start
      rw [if_pos hc]
      cases h : set_current_mount env l r <;>
        simp [init_pipette, session_manager_init, h]
    · exfalso
      unfold start at h201
      rw [if_neg hc] at h201
      simp at h201

/-- Witness for `session_start_resets_gantry`: a forced start over a
non-default gantry calibration resets it to the default. -/
theorem session_start_resets_gantry_witness :
    (start cal_env0 9 true (some 1) none st_c1).2.config.gantry_calibration =
      default_gantry_calibration :=
  (session_start_resets_gantry cal_env0 9 true (some 1) none st_c1).1 rfl

end Opentrons
